import Mathlib

/-!
Verification of the agentD backend (src/agentD/app.py and
src/agentD/agentd_backend/progress_gemini.py) against its specification.

The Python handlers are shallowly embedded as pure Lean functions:
JSON values become an inductive type, the tool-configuration file becomes
an `Option JSON` (`none` when the file is absent), the sqlite table
`agent_tasks` becomes a list of rows, and each route handler becomes a
function from the relevant state and request payload to the new state and
an explicit response value.  Raised exceptions (HTTPException 400 on one
hand, uncaught KeyError/TypeError/AttributeError/IndexError on the other)
become explicit constructors of the response types.
-/

set_option autoImplicit false

namespace AgentD

/-- A JSON value, as produced by Python `json.load` / FastAPI payload
parsing.  Objects are association lists in insertion order, matching
Python dict semantics. -/
inductive JSON where
  | null
  | bool (b : Bool)
  | num (n : Int)
  | str (s : String)
  | arr (xs : List JSON)
  | obj (kvs : List (String × JSON))

/-- First value stored under `key`, as Python dict subscript or `dict.get`
finds it (a dict loaded from JSON has unique keys, so first = only). -/
def lookupKey : List (String × JSON) → String → Option JSON
  | [], _ => none
  | p :: rest, key => if p.fst = key then some p.snd else lookupKey rest key

/-- Python dict assignment `d[key] = v`: replaces the value at an existing
key keeping its position, otherwise appends the new pair. -/
def setKey : List (String × JSON) → String → JSON → List (String × JSON)
  | [], key, v => [(key, v)]
  | p :: rest, key, v =>
    if p.fst = key then (key, v) :: rest else p :: setKey rest key v

/-- Python `j.get(key, default)`.  Returns `none` when `j` is not a dict,
modelling the AttributeError that `.get` raises on a non-dict value. -/
def dictGet (j : JSON) (key : String) (default : JSON) : Option JSON :=
  match j with
  | JSON.obj kvs => some ((lookupKey kvs key).getD default)
  | _ => none

/-- Python `str.startswith`, on the underlying character lists. -/
def charsStartWith : List Char → List Char → Bool
  | [], _ => true
  | _ :: _, [] => false
  | p :: ps, c :: cs => p == c && charsStartWith ps cs

/-- `pyStartsWith s pre` models Python `s.startswith(pre)`. -/
def pyStartsWith (s pre : String) : Bool :=
  charsStartWith pre.data s.data

/-- The fixed URL validation constant of `update_zapier_mcp`
(app.py line 148). -/
def zapierRequiredStart : String := "https://actions.zapier.com/mcp/"

/-- Response of `GET /api/zapier_mcp` (app.py lines 136-143), reduced to
the value placed in the response field `url`.  The result is `none` when
the handler raises (a `.get` applied to a non-dict JSON value), and
`some v` when it answers `{"url": v}`. -/
def get_zapier_mcp (file : Option JSON) : Option JSON :=
  match file with
  | none => some (JSON.str "")
  | some config =>
    match dictGet config "mcpServers" (JSON.obj []) with
    | none => none
    | some m =>
      match dictGet m "zapier" (JSON.obj []) with
      | none => none
      | some z => dictGet z "url" (JSON.str "")

/-- Outcome of `POST /api/zapier_mcp`.  `success url` is the body
`{"status": "success", "url": url}`; `badRequest` is the
`HTTPException(status_code=400, ...)`; `serverError` models an uncaught
exception (KeyError on a document without "mcpServers", TypeError on a
non-dict, AttributeError when the payload url is not a string). -/
inductive PostResponse where
  | success (url : String)
  | badRequest (detail : String)
  | serverError

/-- `POST /api/zapier_mcp` handler `update_zapier_mcp`
(app.py lines 145-157).  Takes the current persisted file contents
(`none` = file absent) and the request payload, returns the new file
contents and the response. -/
def update_zapier_mcp (file : Option JSON) (payload : List (String × JSON)) :
    Option JSON × PostResponse :=
  match (lookupKey payload "url").getD (JSON.str "") with
  | JSON.str url =>
    if pyStartsWith url zapierRequiredStart then
      match file.getD (JSON.obj [("mcpServers", JSON.obj [])]) with
      | JSON.obj kvs =>
        match lookupKey kvs "mcpServers" with
        | some (JSON.obj ms) =>
          (some (JSON.obj (setKey kvs "mcpServers"
              (JSON.obj (setKey ms "zapier" (JSON.obj [("url", JSON.str url)]))))),
            PostResponse.success url)
        | some _ => (file, PostResponse.serverError)
        | none => (file, PostResponse.serverError)
      | _ => (file, PostResponse.serverError)
    else (file, PostResponse.badRequest "Invalid Zapier URL format")
  | _ => (file, PostResponse.serverError)

/-- Well-formed persisted tool-configuration state: either the file is
absent, or it holds a JSON object whose "mcpServers" entry is an object.
Every state the POST handler itself writes has this shape. -/
def WfConfigFile : Option JSON → Prop
  | none => True
  | some j => ∃ kvs ms, j = JSON.obj kvs ∧ lookupKey kvs "mcpServers" = some (JSON.obj ms)

/-- Python `str.isspace` on a single character, the set stripped by
`str.strip()`. -/
def pyIsSpace (c : Char) : Bool :=
  c == ' ' || c == '\t' || c == '\n' || c == '\r' || c == Char.ofNat 11 || c == Char.ofNat 12

/-- Python `s.strip()`. -/
def pyStrip (s : String) : String :=
  String.mk (((s.data.dropWhile pyIsSpace).reverse.dropWhile pyIsSpace).reverse)

/-- Worker for `pySplitLines`: accumulates the current line in reverse. -/
def splitLinesAux : List Char → List Char → List String
  | [], [] => []
  | [], cur => [String.mk cur.reverse]
  | c :: cs, cur =>
    if c = '\n' then String.mk cur.reverse :: splitLinesAux cs []
    else splitLinesAux cs (c :: cur)

/-- Python `s.splitlines()` restricted to the newline character: splits on
each newline and omits a final empty fragment (so a trailing newline adds no
element, and the empty string yields no lines). -/
def pySplitLines (s : String) : List String :=
  splitLinesAux s.data []

/-- Worker for `pySplitDot1`. -/
def splitDotAux : List Char → List Char → List String
  | [], acc => [String.mk acc.reverse]
  | c :: cs, acc =>
    if c = '.' then [String.mk acc.reverse, String.mk cs]
    else splitDotAux cs (c :: acc)

/-- Python `line.split(".", 1)`: one element when the line holds no dot,
two elements (part before the first dot, rest) otherwise. -/
def pySplitDot1 (s : String) : List String :=
  splitDotAux s.data []

/-- The filter `if line and line[0].isdigit()` of `generate_progress_steps`
(progress_gemini.py line 32): the stripped line is non-empty and starts
with a digit. -/
def isStepLine (line : String) : Bool :=
  match line.data with
  | [] => false
  | c :: _ => c.isDigit

/-- Python `l[1]` on a list: the second element when it exists, `none`
modelling the raised IndexError otherwise. -/
def secondElem : List String → Option String
  | _ :: t :: _ => some t
  | _ => none

/-- The text appended for a matching line,
`line.split(".", 1)[1].strip()`, when the index access succeeds
(`""` as an unused placeholder otherwise). -/
def tailAfterDot (line : String) : String :=
  match secondElem (pySplitDot1 line) with
  | some t => pyStrip t
  | none => ""

/-- The parsing loop of `generate_progress_steps`
(progress_gemini.py lines 29-34) over the already-split lines.
`Except.error` models the uncaught IndexError raised by
`line.split(".", 1)[1]` on a digit-leading line holding no dot. -/
def parseLoop : List String → Except String (List String)
  | [] => Except.ok []
  | raw :: rest =>
    if isStepLine (pyStrip raw) then
      match secondElem (pySplitDot1 (pyStrip raw)) with
      | none => Except.error "IndexError: list index out of range"
      | some t =>
        match parseLoop rest with
        | Except.ok steps => Except.ok (pyStrip t :: steps)
        | Except.error e => Except.error e
    else parseLoop rest

/-- The response-parsing stage of `generate_progress_steps`
(progress_gemini.py lines 9-36), applied to the model response text
`response.text`; the network call itself is the external input.  Note the
source never truncates the list to `max_steps`: that argument only enters
the instruction prompt. -/
def generate_progress_steps (responseText : String) : Except String (List String) :=
  parseLoop (pySplitLines responseText)

/-- A digit-leading line is well formed when the part after its first dot
strips to a non-empty text that does not itself start with a digit: the
shape `N. step text` of a well-formed numbered list. -/
def wellFormedStepLine (line : String) : Bool :=
  match secondElem (pySplitDot1 line) with
  | none => false
  | some t => !(pyStrip t).data.isEmpty && !(isStepLine (pyStrip t))

/-- A well-formed numbered-list model response: every line that the parser
treats as a step line (stripped, non-empty, digit-leading) is a well-formed
`N. step text` line.  Other lines (blank, prose) are unconstrained. -/
def wellFormedResponse (text : String) : Bool :=
  (pySplitLines text).all (fun raw =>
    !(isStepLine (pyStrip raw)) || wellFormedStepLine (pyStrip raw))

/-- Number of lines of the response that the parser treats as step lines. -/
def countStepLines (text : String) : Nat :=
  ((pySplitLines text).filter (fun raw => isStepLine (pyStrip raw))).length

/-- Weaker per-line condition: every digit-leading line holds at least one
dot, so the index access `[1]` cannot raise. -/
def everyDigitLineHasDot (text : String) : Bool :=
  (pySplitLines text).all (fun raw =>
    !(isStepLine (pyStrip raw)) || (secondElem (pySplitDot1 (pyStrip raw))).isSome)

/-- Python truthiness of a JSON value, as `if not name or not task`
evaluates it: None, False, 0, "", [] and {} are falsy. -/
def JSON.truthy : JSON → Bool
  | JSON.null => false
  | JSON.bool b => b
  | JSON.num n => !(n == 0)
  | JSON.str s => !s.data.isEmpty
  | JSON.arr xs => !xs.isEmpty
  | JSON.obj kvs => !kvs.isEmpty

/-- Truthiness of a `payload.get(key)` result: a missing key gives Python
`None`, which is falsy. -/
def pyTruthyOpt : Option JSON → Bool
  | none => false
  | some j => j.truthy

/-- Fuel-driven decimal digit rendering: the digits of `n` in order,
prepended to `acc`.  Any fuel above the digit count of `n` is enough. -/
def decDigitsCore : Nat → Nat → List Char → List Char
  | 0, _, acc => acc
  | fuel + 1, n, acc =>
    if n < 10 then Char.ofNat (48 + n % 10) :: acc
    else decDigitsCore fuel (n / 10) (Char.ofNat (48 + n % 10) :: acc)

/-- Python `str(n)` for a non-negative int: its decimal digits. -/
def pyStrNat (n : Nat) : String :=
  String.mk (decDigitsCore (n + 1) n [])

/-- The id generated by `create_agent_task` (app.py line 175):
`f"task_{int(datetime.utcnow().timestamp() * 1000)}"`, from the creation
time in milliseconds. -/
def task_id (nowMs : Nat) : String :=
  "task_" ++ pyStrNat nowMs

/-- Decimal value of a digit string, most significant first. -/
def valOfDigits (cs : List Char) : Nat :=
  cs.foldl (fun a c => 10 * a + (c.toNat - 48)) 0

/-- Digit count that `decDigitsCore` produces under the same fuel. -/
def decLen : Nat → Nat → Nat
  | 0, _ => 0
  | fuel + 1, n => if n < 10 then 1 else decLen fuel (n / 10) + 1

/-- The creation timestamp a generated task id encodes: `none` when the
string does not start with `task_`, otherwise the decimal value of the
rest. -/
def taskIdVal (s : String) : Option Nat :=
  if pyStartsWith s "task_" then some (valOfDigits (s.data.drop 5)) else none

/-- One row of the sqlite table `agent_tasks` (app.py lines 50-58).
`created_at` is the insertion instant (`CURRENT_TIMESTAMP`), held here as
the same creation time that names the id; `last_result` starts NULL. -/
structure AgentTaskRow where
  id : String
  name : JSON
  description : JSON
  task : JSON
  created_at : Nat
  last_result : JSON

/-- Outcome of `POST /api/agent_tasks`.  `created id` is the body
`{"id": id, "status": "created"}`; `badRequest` the
`HTTPException(status_code=400, ...)`; `dbError` the sqlite IntegrityError
raised when the INSERT hits an existing primary key. -/
inductive CreateResponse where
  | created (id : String)
  | badRequest (detail : String)
  | dbError

/-- `POST /api/agent_tasks` handler `create_agent_task`
(app.py lines 169-182), over the table contents and the creation time in
milliseconds.  The INSERT appends the row; a duplicate id violates the
primary key. -/
def create_agent_task (db : List AgentTaskRow) (nowMs : Nat)
    (payload : List (String × JSON)) : List AgentTaskRow × CreateResponse :=
  if !(pyTruthyOpt (lookupKey payload "name")) || !(pyTruthyOpt (lookupKey payload "task")) then
    (db, CreateResponse.badRequest "Name and task are required")
  else
    if db.any (fun r => r.id == task_id nowMs) then (db, CreateResponse.dbError)
    else
      (db ++ [{ id := task_id nowMs,
                name := (lookupKey payload "name").getD JSON.null,
                description := (lookupKey payload "description").getD JSON.null,
                task := (lookupKey payload "task").getD JSON.null,
                created_at := nowMs,
                last_result := JSON.null }],
        CreateResponse.created (task_id nowMs))

/-- Insertion step of a sort by `created_at` descending. -/
def insertDesc (r : AgentTaskRow) : List AgentTaskRow → List AgentTaskRow
  | [] => [r]
  | x :: xs => if r.created_at ≤ x.created_at then x :: insertDesc r xs else r :: x :: xs

/-- Sort by `created_at` descending, one order compatible with the query
`ORDER BY created_at DESC`. -/
def sortDesc : List AgentTaskRow → List AgentTaskRow
  | [] => []
  | r :: rs => insertDesc r (sortDesc rs)

/-- `GET /api/agent_tasks` handler `get_agent_tasks`
(app.py lines 160-167): all rows, ordered by `created_at` descending. -/
def get_agent_tasks (db : List AgentTaskRow) : List AgentTaskRow :=
  sortDesc db

/-- The `try: ... except Exception as e: print(...)` block of
`periodic_metrics_logger` (app.py lines 67-70): an exception of the body
is caught and the block completes normally. -/
def pyTryExceptAll (body : Except String Unit) : Except String Unit :=
  match body with
  | Except.ok u => Except.ok u
  | Except.error _ => Except.ok ()

/-- How one loop iteration ends: with the `await asyncio.sleep(...)` of
the given length, or by an exception escaping the body and killing the
task. -/
inductive IterOutcome where
  | sleeps (seconds : Nat)
  | crashes (e : String)

/-- One iteration of the `while True` body of `periodic_metrics_logger`
(app.py lines 66-71), given the outcome of this call to
`log_system_metrics` (ok, or the exception it raised). -/
def periodic_iteration (intervalSeconds : Nat) (logResult : Except String Unit) :
    IterOutcome :=
  match pyTryExceptAll logResult with
  | Except.ok _ => IterOutcome.sleeps intervalSeconds
  | Except.error e => IterOutcome.crashes e

/-- The background loop `periodic_metrics_logger` (app.py lines 65-71) run
for `n` iterations against a stream of `log_system_metrics` outcomes:
`some slept` is the total seconds slept with the loop still alive,
`none` means an iteration crashed the task. -/
def periodic_metrics_logger (intervalSeconds : Nat)
    (logResults : Nat → Except String Unit) : Nat → Option Nat
  | 0 => some 0
  | n + 1 =>
    match periodic_metrics_logger intervalSeconds logResults n with
    | none => none
    | some slept =>
      match periodic_iteration intervalSeconds (logResults n) with
      | IterOutcome.sleeps s => some (slept + s)
      | IterOutcome.crashes _ => none

theorem lookup_setKey_self (l : List (String × JSON)) (k : String) (v : JSON) :
    lookupKey (setKey l k v) k = some v := by
  induction l with
  | nil => simp [setKey, lookupKey]
  | cons p rest ih =>
    by_cases h : p.fst = k
    · simp [setKey, h, lookupKey]
    · simp [setKey, h, lookupKey, ih]

theorem lookup_setKey_ne (l : List (String × JSON)) (k k2 : String) (v : JSON)
    (h : k2 ≠ k) : lookupKey (setKey l k v) k2 = lookupKey l k2 := by
  induction l with
  | nil => simp [setKey, lookupKey, Ne.symm h]
  | cons p rest ih =>
    by_cases hp : p.fst = k
    · simp [setKey, hp, lookupKey, Ne.symm h]
    · by_cases hp2 : p.fst = k2
      · simp [setKey, hp, lookupKey, hp2, h]
      · simp [setKey, hp, lookupKey, hp2, ih]

theorem charsStartWith_append (l m : List Char) : charsStartWith l (l ++ m) = true := by
  induction l with
  | nil => rfl
  | cons c cs ih => simp [charsStartWith, ih]

theorem pyStartsWith_append (s t : String) : pyStartsWith (s ++ t) s = true := by
  simp [pyStartsWith, String.data_append, charsStartWith_append]

theorem data_task_id (n : Nat) :
    (task_id n).data = "task_".data ++ decDigitsCore (n + 1) n [] := by
  simp [task_id, pyStrNat, String.data_append]

theorem parseLoop_of_dots (lines : List String)
    (h : ∀ raw ∈ lines, isStepLine (pyStrip raw) = true →
      (secondElem (pySplitDot1 (pyStrip raw))).isSome) :
    parseLoop lines = Except.ok
      ((lines.filter (fun raw => isStepLine (pyStrip raw))).map
        (fun raw => tailAfterDot (pyStrip raw))) := by
  induction lines with
  | nil => rfl
  | cons raw rest ih =>
    by_cases hs : isStepLine (pyStrip raw) = true
    · obtain ⟨t, ht⟩ := Option.isSome_iff_exists.mp (h raw (List.mem_cons_self raw rest) hs)
      have hrest := ih (fun r hr hstep => h r (List.mem_cons_of_mem raw hr) hstep)
      simp [parseLoop, hs, ht, hrest, List.filter_cons, tailAfterDot]
    · have hrest := ih (fun r hr hstep => h r (List.mem_cons_of_mem raw hr) hstep)
      simp [parseLoop, hs, hrest, List.filter_cons]

theorem foldl_decDigitsCore (fuel : Nat) : ∀ n acc a, n < fuel →
    List.foldl (fun a c => 10 * a + (c.toNat - 48)) a (decDigitsCore fuel n acc)
      = List.foldl (fun a c => 10 * a + (c.toNat - 48)) (a * 10 ^ decLen fuel n + n) acc := by
  induction fuel with
  | zero => intro n acc a h; omega
  | succ fuel ih =>
    intro n acc a h
    have hchar : ∀ d : Nat, d < 10 → (Char.ofNat (48 + d)).toNat = 48 + d := by
      intro d hd; interval_cases d <;> rfl
    by_cases h10 : n < 10
    · have hd : n % 10 < 10 := Nat.mod_lt n (by omega)
      simp only [decDigitsCore, decLen, h10, if_true, List.foldl_cons, hchar (n % 10) hd,
        pow_one]
      have harg : 10 * a + (48 + n % 10 - 48) = a * 10 + n := by omega
      rw [harg]
    · have hdiv : n / 10 < fuel := by
        have h1 : n / 10 < n := Nat.div_lt_self (by omega) (by omega)
        omega
      have hd : n % 10 < 10 := Nat.mod_lt n (by omega)
      simp only [decDigitsCore, decLen, h10, if_false, List.foldl_cons]
      rw [ih (n / 10) _ a hdiv]
      simp only [List.foldl_cons, hchar (n % 10) hd]
      have harg : 10 * (a * 10 ^ decLen fuel (n / 10) + n / 10) + (48 + n % 10 - 48)
          = a * 10 ^ (decLen fuel (n / 10) + 1) + n := by
        rw [pow_succ, ← mul_assoc]
        generalize a * 10 ^ decLen fuel (n / 10) = M
        omega
      rw [harg]

theorem valOfDigits_pyStrNat (n : Nat) : valOfDigits (pyStrNat n).data = n := by
  have h := foldl_decDigitsCore (n + 1) n [] 0 (Nat.lt_succ_self n)
  simp [valOfDigits, pyStrNat, List.foldl_nil] at h ⊢
  simpa using h

theorem taskIdVal_task_id (n : Nat) : taskIdVal (task_id n) = some n := by
  have hpre : pyStartsWith (task_id n) "task_" = true := pyStartsWith_append "task_" (pyStrNat n)
  have hdrop : (task_id n).data.drop 5 = (pyStrNat n).data := by
    rw [data_task_id]
    rfl
  simp [taskIdVal, hpre, hdrop]
  have := valOfDigits_pyStrNat n
  simpa [pyStrNat] using this

theorem task_id_inj {t1 t2 : Nat} (h : task_id t1 = task_id t2) : t1 = t2 := by
  have h1 := taskIdVal_task_id t1
  have h2 := taskIdVal_task_id t2
  rw [h] at h1
  rw [h1] at h2
  exact Option.some.inj h2

theorem insertDesc_top (x : AgentTaskRow) (l : List AgentTaskRow)
    (h : ∀ r ∈ l, r.created_at < x.created_at) : insertDesc x l = x :: l := by
  cases l with
  | nil => rfl
  | cons a t =>
    have := h a (List.mem_cons_self a t)
    simp [insertDesc, Nat.not_le.mpr this]

theorem sortDesc_append_top (l : List AgentTaskRow) (x : AgentTaskRow)
    (h : ∀ r ∈ l, r.created_at < x.created_at) :
    sortDesc (l ++ [x]) = x :: sortDesc l := by
  induction l with
  | nil => rfl
  | cons a t ih =>
    have ha := h a (List.mem_cons_self a t)
    have ht := ih (fun r hr => h r (List.mem_cons_of_mem a hr))
    have hstep : sortDesc ((a :: t) ++ [x]) = insertDesc a (sortDesc (t ++ [x])) := rfl
    rw [hstep, ht]
    have h2 : insertDesc a (x :: sortDesc t) = x :: insertDesc a (sortDesc t) := by
      simp [insertDesc, Nat.le_of_lt ha]
    rw [h2]
    rfl

/-- C1: for every URL string starting with the required
`https://actions.zapier.com/mcp/` and every well-formed persisted state,
the POST /api/zapier_mcp handler answers `{"status": "success", "url": url}`
and a following GET /api/zapier_mcp returns exactly that URL. -/
theorem c1_set_then_get_roundtrip (file : Option JSON) (url : String)
    (hwf : WfConfigFile file)
    (hurl : pyStartsWith url zapierRequiredStart = true) :
    (update_zapier_mcp file [("url", JSON.str url)]).2 = PostResponse.success url ∧
    get_zapier_mcp (update_zapier_mcp file [("url", JSON.str url)]).1
      = some (JSON.str url) := by
  cases file with
  | none =>
    simp [update_zapier_mcp, lookupKey, hurl, get_zapier_mcp, dictGet, setKey]
  | some j =>
    obtain ⟨kvs, ms, rfl, hms⟩ := hwf
    constructor
    · simp [update_zapier_mcp, lookupKey, hurl, hms]
    · simp [update_zapier_mcp, lookupKey, hurl, hms, get_zapier_mcp, dictGet,
        lookup_setKey_self]

theorem c1_witness :
    (update_zapier_mcp none [("url", JSON.str "https://actions.zapier.com/mcp/xyz")]).2
        = PostResponse.success "https://actions.zapier.com/mcp/xyz" ∧
    get_zapier_mcp
        (update_zapier_mcp none [("url", JSON.str "https://actions.zapier.com/mcp/xyz")]).1
        = some (JSON.str "https://actions.zapier.com/mcp/xyz") :=
  c1_set_then_get_roundtrip none "https://actions.zapier.com/mcp/xyz" trivial (by rfl)

/-- C2: for every URL string that does not start with the required
`https://actions.zapier.com/mcp/`, the POST /api/zapier_mcp handler raises
HTTPException 400 and leaves the persisted file exactly as it was,
whatever that state is. -/
theorem c2_invalid_url_rejected (file : Option JSON) (url : String)
    (h : pyStartsWith url zapierRequiredStart = false) :
    update_zapier_mcp file [("url", JSON.str url)]
      = (file, PostResponse.badRequest "Invalid Zapier URL format") := by
  simp [update_zapier_mcp, lookupKey, h]

theorem c2_witness :
    update_zapier_mcp (some (JSON.obj [("mcpServers", JSON.obj [])]))
        [("url", JSON.str "http://evil.com")]
      = (some (JSON.obj [("mcpServers", JSON.obj [])]),
          PostResponse.badRequest "Invalid Zapier URL format") :=
  c2_invalid_url_rejected (some (JSON.obj [("mcpServers", JSON.obj [])]))
    "http://evil.com" (by rfl)

/-- C8: a successful POST /api/zapier_mcp on an existing document rewrites
only the "zapier" entry under "mcpServers": every other entry under
"mcpServers" and every other top-level key keeps its value. -/
theorem c8_update_frame (kvs ms : List (String × JSON)) (url : String)
    (hms : lookupKey kvs "mcpServers" = some (JSON.obj ms))
    (hurl : pyStartsWith url zapierRequiredStart = true) :
    ∃ kvs2 ms2,
      update_zapier_mcp (some (JSON.obj kvs)) [("url", JSON.str url)]
        = (some (JSON.obj kvs2), PostResponse.success url) ∧
      lookupKey kvs2 "mcpServers" = some (JSON.obj ms2) ∧
      lookupKey ms2 "zapier" = some (JSON.obj [("url", JSON.str url)]) ∧
      (∀ k, k ≠ "mcpServers" → lookupKey kvs2 k = lookupKey kvs k) ∧
      (∀ k, k ≠ "zapier" → lookupKey ms2 k = lookupKey ms k) := by
  refine ⟨setKey kvs "mcpServers"
      (JSON.obj (setKey ms "zapier" (JSON.obj [("url", JSON.str url)]))),
    setKey ms "zapier" (JSON.obj [("url", JSON.str url)]), ?_, ?_, ?_, ?_, ?_⟩
  · simp [update_zapier_mcp, lookupKey, hurl, hms]
  · exact lookup_setKey_self kvs "mcpServers" _
  · exact lookup_setKey_self ms "zapier" _
  · intro k hk
    exact lookup_setKey_ne kvs "mcpServers" k _ hk
  · intro k hk
    exact lookup_setKey_ne ms "zapier" k _ hk

theorem c8_witness :
    ∃ kvs2 ms2,
      update_zapier_mcp
          (some (JSON.obj [("other", JSON.str "keep"),
            ("mcpServers", JSON.obj [("browser", JSON.str "b")])]))
          [("url", JSON.str "https://actions.zapier.com/mcp/abc")]
        = (some (JSON.obj kvs2), PostResponse.success "https://actions.zapier.com/mcp/abc") ∧
      lookupKey kvs2 "mcpServers" = some (JSON.obj ms2) ∧
      lookupKey ms2 "zapier"
        = some (JSON.obj [("url", JSON.str "https://actions.zapier.com/mcp/abc")]) ∧
      (∀ k, k ≠ "mcpServers" →
        lookupKey kvs2 k = lookupKey [("other", JSON.str "keep"),
          ("mcpServers", JSON.obj [("browser", JSON.str "b")])] k) ∧
      (∀ k, k ≠ "zapier" →
        lookupKey ms2 k = lookupKey [("browser", JSON.str "b")] k) :=
  c8_update_frame [("other", JSON.str "keep"),
      ("mcpServers", JSON.obj [("browser", JSON.str "b")])]
    [("browser", JSON.str "b")] "https://actions.zapier.com/mcp/abc" (by rfl) (by rfl)

/-- C5: a POST /api/agent_tasks payload missing the "name" field or
missing the "task" field is rejected with HTTPException 400 and no row is
inserted into agent_tasks. -/
theorem c5_missing_field_rejected (db : List AgentTaskRow) (nowMs : Nat)
    (payload : List (String × JSON))
    (h : lookupKey payload "name" = none ∨ lookupKey payload "task" = none) :
    create_agent_task db nowMs payload
      = (db, CreateResponse.badRequest "Name and task are required") := by
  rcases h with h | h <;> simp [create_agent_task, h, pyTruthyOpt]

theorem c5_witness :
    create_agent_task [] 0 [("task", JSON.str "scrape prices")]
      = ([], CreateResponse.badRequest "Name and task are required") :=
  c5_missing_field_rejected [] 0 [("task", JSON.str "scrape prices")] (Or.inl (by rfl))

/-- C10: a POST /api/agent_tasks payload whose "name" or "task" field is
present but falsy (empty string, 0, empty list, null, false) is rejected
with HTTPException 400 and no row is inserted: the guard
`if not name or not task` is strictly broader than a missing-field
check. -/
theorem c10_falsy_field_rejected (db : List AgentTaskRow) (nowMs : Nat)
    (payload : List (String × JSON)) (v : JSON)
    (h : lookupKey payload "name" = some v ∨ lookupKey payload "task" = some v)
    (hv : JSON.truthy v = false) :
    create_agent_task db nowMs payload
      = (db, CreateResponse.badRequest "Name and task are required") := by
  rcases h with h | h <;> simp [create_agent_task, h, pyTruthyOpt, hv]

theorem c10_witness :
    create_agent_task [] 0 [("name", JSON.str ""), ("task", JSON.str "scrape prices")]
      = ([], CreateResponse.badRequest "Name and task are required") :=
  c10_falsy_field_rejected [] 0 [("name", JSON.str ""), ("task", JSON.str "scrape prices")]
    (JSON.str "") (Or.inl (by rfl)) (by rfl)

/-- C6: posting name "t1" and task "scrape prices" to /api/agent_tasks at
a creation instant later than every stored row (and with the generated id
not already taken) appends exactly one row, answers
`{"id": <id starting with task_>, "status": "created"}`, and a subsequent
GET /api/agent_tasks lists the new task first under the
created_at-descending order. -/
theorem c6_create_then_list_first (db : List AgentTaskRow) (nowMs : Nat)
    (hfresh : ∀ r ∈ db, r.created_at < nowMs)
    (hid : ∀ r ∈ db, r.id ≠ task_id nowMs) :
    create_agent_task db nowMs [("name", JSON.str "t1"), ("task", JSON.str "scrape prices")]
      = (db ++ [⟨task_id nowMs, JSON.str "t1", JSON.null, JSON.str "scrape prices",
            nowMs, JSON.null⟩],
          CreateResponse.created (task_id nowMs)) ∧
    pyStartsWith (task_id nowMs) "task_" = true ∧
    (get_agent_tasks (db ++ [⟨task_id nowMs, JSON.str "t1", JSON.null,
        JSON.str "scrape prices", nowMs, JSON.null⟩])).head?
      = some ⟨task_id nowMs, JSON.str "t1", JSON.null, JSON.str "scrape prices",
          nowMs, JSON.null⟩ := by
  refine ⟨?_, pyStartsWith_append "task_" (pyStrNat nowMs), ?_⟩
  · have hdup : db.any (fun r => r.id == task_id nowMs) = false := by
      rw [List.any_eq_false]
      intro r hr
      simpa using hid r hr
    simp [create_agent_task, lookupKey, pyTruthyOpt, JSON.truthy, hdup]
  · rw [get_agent_tasks, sortDesc_append_top db _ (fun r hr => hfresh r hr)]
    rfl

theorem c6_witness :
    create_agent_task [] 1000 [("name", JSON.str "t1"), ("task", JSON.str "scrape prices")]
      = ([⟨task_id 1000, JSON.str "t1", JSON.null, JSON.str "scrape prices",
            1000, JSON.null⟩],
          CreateResponse.created (task_id 1000)) ∧
    pyStartsWith (task_id 1000) "task_" = true ∧
    (get_agent_tasks [⟨task_id 1000, JSON.str "t1", JSON.null,
        JSON.str "scrape prices", 1000, JSON.null⟩]).head?
      = some ⟨task_id 1000, JSON.str "t1", JSON.null, JSON.str "scrape prices",
          1000, JSON.null⟩ :=
  c6_create_then_list_first [] 1000 (by simp) (by simp)

/-- C7: across two successive successful create_agent_task calls the
generated ids differ, each id encodes its creation time in milliseconds,
and (time moving forward between the calls) the later id encodes the
strictly greater timestamp, so tasks are distinguishable by creation
order.  Two calls in the same millisecond cannot both succeed: the second
INSERT hits the same primary key. -/
theorem c7_ids_ordered (db db1 db2 : List AgentTaskRow)
    (p1 p2 : List (String × JSON)) (t1 t2 : Nat) (id1 id2 : String)
    (h1 : create_agent_task db t1 p1 = (db1, CreateResponse.created id1))
    (h2 : create_agent_task db1 t2 p2 = (db2, CreateResponse.created id2))
    (hord : t1 ≤ t2) :
    id1 ≠ id2 ∧ taskIdVal id1 = some t1 ∧ taskIdVal id2 = some t2 ∧ t1 < t2 := by
  rw [create_agent_task] at h1
  split at h1
  · simp at h1
  · split at h1
    · simp at h1
    · injection h1 with hdb1 hr1
      injection hr1 with hid1
      subst hdb1
      subst hid1
      rw [create_agent_task] at h2
      split at h2
      · simp at h2
      · split at h2
        · simp at h2
        · rename_i hdup2
          injection h2 with hdb2 hr2
          injection hr2 with hid2
          subst hid2
          have hne : task_id t1 ≠ task_id t2 := by
            intro he
            apply hdup2
            simp [List.any_append, he]
          have hlt : t1 < t2 :=
            lt_of_le_of_ne hord (fun he => hne (by rw [he]))
          exact ⟨hne, taskIdVal_task_id t1, taskIdVal_task_id t2, hlt⟩

theorem c7_witness :
    "task_1000" ≠ "task_2000" ∧ taskIdVal "task_1000" = some 1000 ∧
    taskIdVal "task_2000" = some 2000 ∧ 1000 < 2000 :=
  c7_ids_ordered []
    [⟨"task_1000", JSON.str "a", JSON.null, JSON.str "x", 1000, JSON.null⟩]
    [⟨"task_1000", JSON.str "a", JSON.null, JSON.str "x", 1000, JSON.null⟩,
      ⟨"task_2000", JSON.str "a", JSON.null, JSON.str "x", 2000, JSON.null⟩]
    [("name", JSON.str "a"), ("task", JSON.str "x")]
    [("name", JSON.str "a"), ("task", JSON.str "x")]
    1000 2000 "task_1000" "task_2000" (by rfl) (by rfl) (by omega)

/-- C3 counterexample: a well-formed numbered-list response with seven
step lines is parsed into seven entries, not at most six — the source
never truncates to `max_steps`; that argument only shapes the instruction
prompt. -/
theorem c3_counterexample :
    wellFormedResponse "1. a\n2. b\n3. c\n4. d\n5. e\n6. f\n7. g" = true ∧
    generate_progress_steps "1. a\n2. b\n3. c\n4. d\n5. e\n6. f\n7. g"
      = Except.ok ["a", "b", "c", "d", "e", "f", "g"] ∧
    ¬ (["a", "b", "c", "d", "e", "f", "g"] : List String).length ≤ 6 :=
  ⟨rfl, rfl, by decide⟩

/-- C3 (amended): for every well-formed numbered-list model response, the
parsing stage of generate_progress_steps returns one entry per step line
with no error, each entry a non-empty string that does not carry a leading
numeral marker; in particular at most 6 entries whenever the response
holds at most 6 step lines (the function itself never truncates to
`max_steps`). -/
theorem c3_steps_clean (text : String) (h : wellFormedResponse text = true) :
    ∃ steps, generate_progress_steps text = Except.ok steps ∧
      steps.length = countStepLines text ∧
      (countStepLines text ≤ 6 → steps.length ≤ 6) ∧
      (∀ s ∈ steps, s ≠ "" ∧ isStepLine s = false) := by
  have hall : ∀ raw ∈ pySplitLines text, isStepLine (pyStrip raw) = true →
      wellFormedStepLine (pyStrip raw) = true := by
    intro raw hr hstep
    have hx := (List.all_eq_true.mp h) raw hr
    simpa [hstep] using hx
  have hdots : ∀ raw ∈ pySplitLines text, isStepLine (pyStrip raw) = true →
      (secondElem (pySplitDot1 (pyStrip raw))).isSome := by
    intro raw hr hstep
    have hw := hall raw hr hstep
    cases hh : secondElem (pySplitDot1 (pyStrip raw)) with
    | none => simp [wellFormedStepLine, hh] at hw
    | some t => simp [hh]
  refine ⟨_, parseLoop_of_dots (pySplitLines text) hdots, ?_, ?_, ?_⟩
  · simp [countStepLines]
  · intro hle
    simpa [countStepLines] using hle
  · intro s hs
    rw [List.mem_map] at hs
    obtain ⟨raw, hrawmem, rfl⟩ := hs
    rw [List.mem_filter] at hrawmem
    obtain ⟨hmem, hstep⟩ := hrawmem
    have hw := hall raw hmem hstep
    cases hh : secondElem (pySplitDot1 (pyStrip raw)) with
    | none => simp [wellFormedStepLine, hh] at hw
    | some t =>
      simp [wellFormedStepLine, hh] at hw
      obtain ⟨hne, hnd⟩ := hw
      constructor
      · simp only [tailAfterDot, hh]
        intro he
        have : (pyStrip t).data = [] := by rw [he]
        simp [this] at hne
      · simp only [tailAfterDot, hh]
        exact hnd

theorem c3_witness :
    wellFormedResponse "1. Open browser\n2. Done" = true ∧
    (∃ steps, generate_progress_steps "1. Open browser\n2. Done" = Except.ok steps ∧
      steps.length = countStepLines "1. Open browser\n2. Done" ∧
      (countStepLines "1. Open browser\n2. Done" ≤ 6 → steps.length ≤ 6) ∧
      (∀ s ∈ steps, s ≠ "" ∧ isStepLine s = false)) :=
  ⟨rfl, c3_steps_clean "1. Open browser\n2. Done" rfl⟩

/-- C4 counterexample: the parsing step can raise.  On the response text
"1" the line passes the filter `line and line[0].isdigit()` yet holds no
dot, so `line.split(".", 1)[1]` raises IndexError, where the claim says a
line without the `N.` pattern is silently discarded. -/
theorem c4_counterexample :
    generate_progress_steps "1" = Except.error "IndexError: list index out of range" :=
  rfl

/-- C4 (amended): the line-parsing step raises no error provided every
digit-leading line holds a dot; under that proviso, lines not matching
the pattern are silently discarded, and fewer matching lines simply give
fewer steps, with no padding and no error.  A digit-leading line without
any dot, however, raises an uncaught IndexError. -/
theorem c4_no_error_when_dotted (text : String)
    (h : everyDigitLineHasDot text = true) :
    ∃ steps, generate_progress_steps text = Except.ok steps ∧
      steps.length = countStepLines text ∧
      countStepLines text ≤ (pySplitLines text).length := by
  have hdots : ∀ raw ∈ pySplitLines text, isStepLine (pyStrip raw) = true →
      (secondElem (pySplitDot1 (pyStrip raw))).isSome := by
    intro raw hr hstep
    have hx := (List.all_eq_true.mp h) raw hr
    simpa [hstep] using hx
  refine ⟨_, parseLoop_of_dots (pySplitLines text) hdots, ?_, ?_⟩
  · simp [countStepLines]
  · simpa [countStepLines] using List.length_filter_le
      (fun raw => isStepLine (pyStrip raw)) (pySplitLines text)

theorem c4_witness :
    everyDigitLineHasDot "intro\n1. Open\nnote" = true ∧
    (∃ steps, generate_progress_steps "intro\n1. Open\nnote" = Except.ok steps ∧
      steps.length = countStepLines "intro\n1. Open\nnote" ∧
      countStepLines "intro\n1. Open\nnote" ≤ (pySplitLines "intro\n1. Open\nnote").length) :=
  ⟨rfl, c4_no_error_when_dotted "intro\n1. Open\nnote" rfl⟩

/-- C9: the metrics background loop never dies of a logging failure:
whatever each call to log_system_metrics does (returns or raises), after
`n` iterations the loop is still alive and has slept the fixed 60 seconds
once per iteration. -/
theorem c9_loop_survives_failures (logResults : Nat → Except String Unit) (n : Nat) :
    periodic_metrics_logger 60 logResults n = some (60 * n) := by
  induction n with
  | zero => rfl
  | succ n ih =>
    have hiter : periodic_iteration 60 (logResults n) = IterOutcome.sleeps 60 := by
      cases logResults n <;> rfl
    simp [periodic_metrics_logger, ih, hiter, Nat.mul_succ]

end AgentD
